import Mathlib

/-!
Verification of the listing ingestion and deal-scoring pipeline of the
auto-finder repository.  The definitions below are a shallow embedding of
`src/data_processor.py` (class `DataProcessor`), `src/scraping_engine.py`
(class `CarScrapingEngine`) and the row shape of `src/models.py`
(class `CarListing`).

Modelling conventions:
* Python strings are `List Char` (ASCII range is all that the pipeline
  produces); `str.lower` is `Char.toLower` mapped over the list.
* Python `None`-able values are `Option _`; Python truthiness of a string
  is "not `None` and not empty", of an integer "not `None` and not `0`".
* Python `float` arithmetic of the scorers is modelled as exact `ℚ`
  arithmetic (all comparisons the claims exercise are far from any
  rounding boundary).
* Wall-clock inputs (`datetime.utcnow()`, `datetime.now().year`) are
  explicit integer parameters threaded into the functions that read them.
* The database session is a list of rows; a repository write failure
  (exception raised out of `db.session.commit`) is modelled by an oracle
  predicate on the record's URL, since the failure itself originates in
  the external persistence engine.
-/

/-- Python `\s` (ASCII fragment): the whitespace characters `' '`, tab,
newline, carriage return, vertical tab, form feed. -/
def pySpace (c : Char) : Bool :=
  c = ' ' || c = '\t' || c = '\n' || c = '\r' || c = '\x0b' || c = '\x0c'

/-- Python `\w` (ASCII fragment): letters, digits and underscore. -/
def pyWord (c : Char) : Bool :=
  c.isAlphanum || c = '_'

/-- Lowercasing of a Python string, `str.lower`. -/
def lowerL (s : List Char) : List Char :=
  s.map Char.toLower

/-- String literal to character list. -/
def strL (s : String) : List Char :=
  s.data

/-- Python `str.strip()`: drop leading and trailing whitespace. -/
def stripL (s : List Char) : List Char :=
  ((s.dropWhile pySpace).reverse.dropWhile pySpace).reverse

/-- Effect of `re.sub(r'\s+', ' ', s)`: every maximal run of whitespace
becomes a single space. -/
def collapseWS (s : List Char) : List Char :=
  s.foldr (fun c acc =>
    if pySpace c then
      match acc with
      | ' ' :: _ => acc
      | _ => ' ' :: acc
    else c :: acc) []

/-- Effect of `re.sub(r'[^\w\s\-\.]', '', s)`: keep only word characters,
whitespace, hyphen and period. -/
def keepAllowed (s : List Char) : List Char :=
  s.filter (fun c => pyWord c || pySpace c || c = '-' || c = '.')

/-- `DataProcessor.clean_text` (src/data_processor.py:140-151): strip,
collapse whitespace runs to single spaces, then drop special characters.
An absent (`None`) argument at the call sites is passed as the empty
string, which this function maps to the empty string as well. -/
def clean_text (s : List Char) : List Char :=
  keepAllowed (collapseWS (stripL s))

/-- Python `str.startswith`: `startsWithL s p` is true when `p` is an
initial segment of `s`. -/
def startsWithL : List Char → List Char → Bool
  | _, [] => true
  | [], _ :: _ => false
  | c :: cs, d :: ds => c == d && startsWithL cs ds

/-- Python substring membership `p in s`. -/
def containsSub : List Char → List Char → Bool
  | hay, pat =>
    startsWithL hay pat ||
      match hay with
      | [] => false
      | _ :: t => containsSub t pat

/-- Truthiness of a Python optional string: `None` and `""` are falsy. -/
def truthyS : Option (List Char) → Bool
  | none => false
  | some s => !s.isEmpty

/-- Truthiness of a Python optional integer: `None` and `0` are falsy. -/
def truthyI : Option Int → Bool
  | none => false
  | some v => decide (v ≠ 0)

/-! ## difflib.SequenceMatcher

`SequenceMatcher(None, a, b).ratio()` is `2*M / (len a + len b)` where `M`
is the total size of the matching blocks.  With no junk (titles are far
below the 200-character autojunk threshold) `find_longest_match` returns,
among the maximal matching blocks, the one starting earliest in `a` and,
of those, earliest in `b`.  `get_matching_blocks` recurses on the slices
left and right of that block.  The ratio comparison against a threshold
`n/d` is done in exact arithmetic: `ratio > n/d  ↔  d*2*M > n*(|a|+|b|)`.
-/

/-- Length of the longest common prefix of two lists. -/
def commonPrefixLen : List Char → List Char → Nat
  | x :: xs, y :: ys => if x = y then commonPrefixLen xs ys + 1 else 0
  | _, _ => 0

/-- `SequenceMatcher.find_longest_match` on whole sequences: the longest
block `(i, j, k)` with `a.drop i` and `b.drop j` sharing a common prefix
of length `k`, ties broken by least `i`, then least `j`.  Returns
`(0, 0, 0)` when there is no common character. -/
def findLongestMatch (a b : List Char) : Nat × Nat × Nat :=
  (List.range a.length).foldl (fun best i =>
    (List.range b.length).foldl (fun best j =>
      let k := commonPrefixLen (a.drop i) (b.drop j)
      if k > best.2.2 then (i, j, k) else best) best)
    (0, 0, 0)

/-- Total size of the matching blocks of `SequenceMatcher`, computed by
the recursive block decomposition of `get_matching_blocks`; the fuel is
an upper bound on the recursion depth (each level shortens `a`). -/
def matchTotalAux : Nat → List Char → List Char → Nat
  | 0, _, _ => 0
  | fuel + 1, a, b =>
    let m := findLongestMatch a b
    if m.2.2 = 0 then 0
    else
      m.2.2 + matchTotalAux fuel (a.take m.1) (b.take m.2.1)
        + matchTotalAux fuel (a.drop (m.1 + m.2.2)) (b.drop (m.2.1 + m.2.2))

/-- Total matched size `M` for `SequenceMatcher(None, a, b)`. -/
def matchTotal (a b : List Char) : Nat :=
  matchTotalAux (a.length + 1) a b

/-- Exact form of `SequenceMatcher(None, a, b).ratio() > n/d`. -/
def ratioGt (a b : List Char) (n d : Nat) : Bool :=
  decide (d * (2 * matchTotal a b) > n * (a.length + b.length))

/-! ## DataProcessor (src/data_processor.py) -/

/-- A raw scraped record as consumed by `DataProcessor` (`clean_listing_data`
reads these keys with `.get`, so every field may be absent; `None`-valued
and absent keys behave identically at these call sites). -/
structure RawListing where
  title : Option (List Char) := none
  price : Option Int := none
  location : Option (List Char) := none
  url : Option (List Char) := none
  image_url : Option (List Char) := none
  image_hash : Option (List Char) := none
  source_site : Option (List Char) := none
  make : Option (List Char) := none
  model : Option (List Char) := none
  year : Option Int := none
  mileage : Option Int := none
  fuel_type : Option (List Char) := none
  transmission : Option (List Char) := none
  deriving DecidableEq

/-- Price factor of `DataProcessor.calculate_deal_score`
(src/data_processor.py:240-250). -/
def dpScorePrice (price : Option Int) : Int :=
  if truthyI price then
    let p := price.getD 0
    if p < 10000 then 20
    else if p < 20000 then 15
    else if p < 30000 then 10
    else 5
  else 0

/-- Year factor of `DataProcessor.calculate_deal_score`
(src/data_processor.py:252-264). -/
def dpScoreYear (currentYear : Int) (year : Option Int) : Int :=
  if truthyI year then
    let age := currentYear - year.getD 0
    if age ≤ 2 then 20
    else if age ≤ 5 then 15
    else if age ≤ 10 then 10
    else 5
  else 0

/-- Mileage factor of `DataProcessor.calculate_deal_score`
(src/data_processor.py:266-278); the float thresholds `avg*0.5` and
`avg*1.5` are exact halves, written as the equivalent integer
comparisons `2*m < avg` and `2*m < 3*avg`. -/
def dpScoreMileage (currentYear : Int) (mileage year : Option Int) : Int :=
  if truthyI mileage && truthyI year then
    let age := currentYear - year.getD 0
    if age > 0 then
      let avg := age * 15000
      let m := mileage.getD 0
      if 2 * m < avg then 15
      else if m < avg then 10
      else if 2 * m < 3 * avg then 5
      else 0
    else 0
  else 0

/-- Fuel factor of `DataProcessor.calculate_deal_score`
(src/data_processor.py:280-287): substring tests on the lowercased
fuel string. -/
def dpScoreFuel (fuel : Option (List Char)) : Int :=
  let f := lowerL (fuel.getD [])
  if containsSub f (strL "electric") then 10
  else if containsSub f (strL "hybrid") then 8
  else if containsSub f (strL "diesel") then 5
  else 0

/-- `DataProcessor.calculate_deal_score` (src/data_processor.py:235-294):
the simplified intake-time scorer, base 50 plus factor bonuses, clamped
by `max(0, min(100, score))`.  (An explicit `None` under the
`fuel_type` key would make the Python fall into its exception handler
and return the base 50, also within every bound proved below.) -/
def calculate_deal_score (currentYear : Int) (r : RawListing) : Int :=
  let score := 50 + dpScorePrice r.price + dpScoreYear currentYear r.year
    + dpScoreMileage currentYear r.mileage r.year + dpScoreFuel r.fuel_type
  max 0 (min 100 score)

/-- The canonical listing dictionary returned by
`DataProcessor.clean_listing_data` (src/data_processor.py:117-134). -/
structure CleanedListing where
  title : List Char
  price : Option Int
  location : List Char
  url : List Char
  image_url : List Char
  image_hash : List Char
  source_site : List Char
  first_seen : Int
  make : List Char
  model : List Char
  year : Option Int
  mileage : Option Int
  fuel_type : List Char
  transmission : List Char
  deal_score : Int
  is_duplicate : Bool
  deriving DecidableEq

/-- The dictionary built by the success path of
`DataProcessor.clean_listing_data` (src/data_processor.py:83-134): the
field-by-field cleaning is pure, so it is factored out of the guard
structure.  Out-of-range price/year/mileage are nulled only when truthy
(the Python guard is `if price and (price < 500 or price > 200000)`,
and similarly for year and mileage). -/
def mkCleaned (now currentYear : Int) (r : RawListing) : CleanedListing :=
  { title := clean_text (r.title.getD [])
    price := match r.price with
      | none => none
      | some p => if p ≠ 0 ∧ (p < 500 ∨ p > 200000) then none else some p
    location :=
      let loc := clean_text (r.location.getD [])
      if loc.isEmpty then strL "Ireland" else loc
    url := r.url.getD []
    image_url :=
      let iu := r.image_url.getD []
      if !iu.isEmpty && !(startsWithL iu (strL "http")) then [] else iu
    image_hash := r.image_hash.getD []
    source_site := r.source_site.getD (strL "unknown")
    first_seen := now
    make := clean_text (r.make.getD [])
    model := clean_text (r.model.getD [])
    year := match r.year with
      | none => none
      | some y => if y ≠ 0 ∧ (y < 1990 ∨ y > 2025) then none else some y
    mileage := match r.mileage with
      | none => none
      | some m => if m ≠ 0 ∧ (m < 0 ∨ m > 500000) then none else some m
    fuel_type := clean_text (r.fuel_type.getD [])
    transmission := clean_text (r.transmission.getD [])
    deal_score := calculate_deal_score currentYear r
    is_duplicate := false }

/-- `DataProcessor.clean_listing_data` (src/data_processor.py:70-138).
Returns `none` exactly when the record is rejected: falsy title or url,
cleaned title shorter than 10 characters, or url without the `http`
prefix (the numeric-range cleanups between the source's guards are pure,
so they are grouped in `mkCleaned`). -/
def clean_listing_data (now currentYear : Int) (r : RawListing) : Option CleanedListing :=
  if !(truthyS r.title) || !(truthyS r.url) then none
  else if (clean_text (r.title.getD [])).length < 10 then none
  else if !(startsWithL (r.url.getD []) (strL "http")) then none
  else some (mkCleaned now currentYear r)

/-- A persisted `car_listings` row as written by `DataProcessor.store_listing`
(src/models.py:132-181; columns not touched by the data-processor path are
omitted, they keep their database defaults). -/
structure DPRow where
  title : List Char
  price : Option Int
  location : List Char
  url : List Char
  image_url : List Char
  image_hash : List Char
  source_site : List Char
  first_seen : Int
  last_seen : Int
  make : List Char
  model : List Char
  year : Option Int
  mileage : Option Int
  fuel_type : List Char
  transmission : List Char
  deal_score : Int
  is_duplicate : Bool
  deriving DecidableEq

/-- In-memory state of one `DataProcessor`: the two duplicate-detection
working sets (`processed_urls`, `processed_titles`, modelled as lists)
and the database session contents. -/
structure DPState where
  processed_urls : List (List Char)
  processed_titles : List (List Char)
  db : List DPRow
  deriving DecidableEq

/-- The `RunStatistics` dictionary of `DataProcessor.process_listings`
(src/data_processor.py:34-40). -/
structure RunStats where
  total_processed : Nat
  new_listings : Nat
  updated_listings : Nat
  duplicates_skipped : Nat
  errors : Nat
  deriving DecidableEq

/-- Whether the database holds a row with the given URL
(`CarListing.query.filter_by(url=url).first()` is not `None`). -/
def dbHasUrl (db : List DPRow) (url : List Char) : Bool :=
  db.any (fun r => r.url == url)

/-- `DataProcessor.is_duplicate` (src/data_processor.py:153-177): URL
working set, then title similarity above 0.9 against the title working
set (no price condition at this call site), then a database URL lookup;
when none fires, the URL and title are added to the working sets and
`false` is returned. -/
def is_duplicate (s : DPState) (url title : List Char) : Bool × DPState :=
  if s.processed_urls.any (fun u => u == url) then (true, s)
  else if s.processed_titles.any (fun t => ratioGt (lowerL title) (lowerL t) 9 10) then (true, s)
  else if dbHasUrl s.db url then (true, s)
  else (false, { s with
    processed_urls := url :: s.processed_urls
    processed_titles := title :: s.processed_titles })

/-- Outcome tag of `DataProcessor.store_listing`. -/
inductive StoreResult where
  | new
  | updated
  deriving DecidableEq

/-- Replace the first list element satisfying `p` by its image under `f`
(the SQLAlchemy `query...first()` object is mutated in place). -/
def replaceFirst (p : α → Bool) (f : α → α) : List α → List α
  | [] => []
  | x :: xs => if p x then f x :: xs else x :: replaceFirst p f xs

/-- Field updates of the `existing` branch of `DataProcessor.store_listing`
(src/data_processor.py:185-203): everything from the cleaned data except
`url`, `source_site`, `first_seen` and `is_duplicate`, plus `last_seen`. -/
def dpUpdateRow (now : Int) (c : CleanedListing) (r : DPRow) : DPRow :=
  { r with
    title := c.title
    price := c.price
    location := c.location
    image_url := c.image_url
    image_hash := c.image_hash
    make := c.make
    model := c.model
    year := c.year
    mileage := c.mileage
    fuel_type := c.fuel_type
    transmission := c.transmission
    deal_score := c.deal_score
    last_seen := now }

/-- Row inserted by the `else` branch of `DataProcessor.store_listing`
(src/data_processor.py:204-228); `last_seen` takes its column default. -/
def dpNewRow (now : Int) (c : CleanedListing) : DPRow :=
  { title := c.title
    price := c.price
    location := c.location
    url := c.url
    image_url := c.image_url
    image_hash := c.image_hash
    source_site := c.source_site
    first_seen := c.first_seen
    last_seen := now
    make := c.make
    model := c.model
    year := c.year
    mileage := c.mileage
    fuel_type := c.fuel_type
    transmission := c.transmission
    deal_score := c.deal_score
    is_duplicate := c.is_duplicate }

/-- `DataProcessor.store_listing` (src/data_processor.py:179-233) on its
successful paths: update the first row with the same URL, or insert a
fresh row.  A raising write is modelled at the call site (the function
re-raises after rolling the session back, so the database is unchanged
in that case). -/
def store_listing (now : Int) (c : CleanedListing) (db : List DPRow) :
    StoreResult × List DPRow :=
  if dbHasUrl db c.url then
    (StoreResult.updated, replaceFirst (fun r => r.url == c.url) (dpUpdateRow now c) db)
  else
    (StoreResult.new, db ++ [dpNewRow now c])

/-- One iteration of the `for listing_data in raw_listings` loop of
`DataProcessor.process_listings` (src/data_processor.py:42-65).
`failStore u` injects a repository write failure for URL `u`
(`store_listing` raises, the per-record `except` catches it and counts
an error; the working sets keep whatever `is_duplicate` put there). -/
def processOneDP (failStore : List Char → Bool) (now currentYear : Int)
    (acc : DPState × RunStats) (raw : RawListing) : DPState × RunStats :=
  let (s, st) := acc
  match clean_listing_data now currentYear raw with
  | none => (s, { st with errors := st.errors + 1 })
  | some c =>
    let (dup, s1) := is_duplicate s c.url c.title
    if dup then (s1, { st with duplicates_skipped := st.duplicates_skipped + 1 })
    else if failStore c.url then (s1, { st with errors := st.errors + 1 })
    else
      match store_listing now c s1.db with
      | (StoreResult.new, db1) =>
        ({ s1 with db := db1 }, { st with new_listings := st.new_listings + 1 })
      | (StoreResult.updated, db1) =>
        ({ s1 with db := db1 }, { st with updated_listings := st.updated_listings + 1 })

/-- `DataProcessor.process_listings` (src/data_processor.py:23-68): fold
the per-record step over the batch, starting from zeroed statistics with
`total_processed = len(raw_listings)`. -/
def process_listings (failStore : List Char → Bool) (now currentYear : Int)
    (s : DPState) (raws : List RawListing) : DPState × RunStats :=
  raws.foldl (processOneDP failStore now currentYear)
    (s, { total_processed := raws.length, new_listings := 0,
          updated_listings := 0, duplicates_skipped := 0, errors := 0 })

/-- A `DataProcessor` as freshly constructed for a run: empty working
sets over the given database contents. -/
def freshDP (db : List DPRow) : DPState :=
  { processed_urls := [], processed_titles := [], db := db }

/-- Number of persisted rows carrying a given URL. -/
def countUrl (db : List DPRow) (url : List Char) : Nat :=
  db.countP (fun r => r.url == url)

/-! ## CarScrapingEngine (src/scraping_engine.py) -/

/-- The slice of `UserSettings` (src/models.py:43-114) read by
`CarScrapingEngine.calculate_deal_score`: the seven scoring weights and
the approved-location list; the remaining columns are never consulted by
the functions embedded here. -/
structure UserSettings where
  weight_price_vs_market : Int
  weight_mileage_vs_year : Int
  weight_co2_tax_band : Int
  weight_popularity_rarity : Int
  weight_price_dropped : Int
  weight_location_match : Int
  weight_listing_freshness : Int
  approved_locations : List (List Char)
  deriving DecidableEq

/-- Sum of the seven scoring weights (documented to total 100). -/
def weightSum (u : UserSettings) : Int :=
  u.weight_price_vs_market + u.weight_mileage_vs_year + u.weight_co2_tax_band
    + u.weight_popularity_rarity + u.weight_price_dropped
    + u.weight_location_match + u.weight_listing_freshness

/-- The dictionary keys `CarScrapingEngine.calculate_deal_score` reads
from its `listing` argument with `.get`. -/
structure ScorerInput where
  price : Option Int := none
  year : Option Int := none
  mileage : Option Int := none
  fuel_type : Option (List Char) := none
  price_dropped : Bool := false
  location : Option (List Char) := none
  first_seen : Option Int := none
  deriving DecidableEq

/-- Price-vs-market factor (src/scraping_engine.py:169-177): guarded by
truthiness of both price and year; the division by `price` happens only
under that guard. -/
def seScorePrice (currentYear : Int) (l : ScorerInput) (u : UserSettings) : ℚ :=
  if truthyI l.price && truthyI l.year then
    let age := currentYear - l.year.getD 0
    let emv : Int := max 1000 (20000 - age * 1500)
    min 1 ((emv : ℚ) / (l.price.getD 0 : ℚ)) * (u.weight_price_vs_market : ℚ)
  else 0

/-- Mileage-vs-year factor (src/scraping_engine.py:179-186): guarded by
truthiness of mileage and year, and active only when the actual mileage
is below the expected one; the division by `mileage` happens only under
those guards. -/
def seScoreMileage (currentYear : Int) (l : ScorerInput) (u : UserSettings) : ℚ :=
  if truthyI l.mileage && truthyI l.year then
    let age := currentYear - l.year.getD 0
    let expected := age * 12000
    if l.mileage.getD 0 < expected then
      min 1 ((expected : ℚ) / (l.mileage.getD 0 : ℚ)) * (u.weight_mileage_vs_year : ℚ)
    else 0
  else 0

/-- CO2/tax-band factor (src/scraping_engine.py:188-195): equality of
the lowercased fuel type against fixed names. -/
def seScoreFuel (l : ScorerInput) (u : UserSettings) : ℚ :=
  if truthyS l.fuel_type then
    let f := lowerL (l.fuel_type.getD [])
    if f = strL "electric" ∨ f = strL "hybrid" then (u.weight_co2_tax_band : ℚ)
    else if f = strL "diesel" then (u.weight_co2_tax_band : ℚ) * (7 / 10)
    else (u.weight_co2_tax_band : ℚ) * (1 / 2)
  else 0

/-- Location-match factor (src/scraping_engine.py:205-211): substring
test of each lowercased approved location inside the lowercased listing
location. -/
def seScoreLocation (l : ScorerInput) (u : UserSettings) : ℚ :=
  if truthyS l.location then
    if u.approved_locations.any
        (fun loc => containsSub (lowerL (l.location.getD [])) (lowerL loc)) then
      (u.weight_location_match : ℚ)
    else 0
  else 0

/-- Freshness factor (src/scraping_engine.py:213-217); `nowDays` and the
stored `first_seen` are day counts, so `days_old` is their difference. -/
def seScoreFreshness (nowDays : Int) (l : ScorerInput) (u : UserSettings) : ℚ :=
  match l.first_seen with
  | some fs =>
    let daysOld := nowDays - fs
    max 0 (1 - (daysOld : ℚ) / 30) * (u.weight_listing_freshness : ℚ)
  | none => 0

/-- `CarScrapingEngine.calculate_deal_score` (src/scraping_engine.py:165-219):
the weighted preference-based scorer, an additive model clamped by
`min(100.0, max(0.0, score))`. -/
def se_calculate_deal_score (currentYear nowDays : Int)
    (l : ScorerInput) (u : UserSettings) : ℚ :=
  let score := seScorePrice currentYear l u + seScoreMileage currentYear l u
    + seScoreFuel l u + (u.weight_popularity_rarity : ℚ) * (1 / 2)
    + (if l.price_dropped then (u.weight_price_dropped : ℚ) else 0)
    + seScoreLocation l u + seScoreFreshness nowDays l u
  min 100 (max 0 score)

/-- A raw record as produced by the engine's site parsers
(`parse_carzone_listing` / `parse_donedeal_listing`,
src/scraping_engine.py:279-340 and 400-461): title, price, location,
url, source_site and first_seen are always present; the rest may be
`None`. -/
structure SERaw where
  title : List Char
  price : Int
  location : List Char
  url : List Char
  image_url : Option (List Char) := none
  image_hash : Option (List Char) := none
  source_site : List Char
  first_seen : Int
  make : Option (List Char) := none
  model : Option (List Char) := none
  year : Option Int := none
  mileage : Option Int := none
  fuel_type : Option (List Char) := none
  transmission : Option (List Char) := none
  deriving DecidableEq

/-- A `car_listings` row as created and updated by
`CarScrapingEngine.process_listings`; untouched columns keep their
`models.py` defaults (`status='active'`, `previous_price=None`,
`price_dropped=False`, `price_drop_amount=0`). -/
structure SERow where
  id : Nat
  title : List Char
  price : Int
  location : List Char
  url : List Char
  image_url : Option (List Char)
  image_hash : Option (List Char)
  source_site : List Char
  make : Option (List Char)
  model : Option (List Char)
  year : Option Int
  mileage : Option Int
  fuel_type : Option (List Char)
  transmission : Option (List Char)
  status : List Char
  is_duplicate : Bool
  duplicate_group_id : Option Nat
  deal_score : ℚ
  previous_price : Option Int
  price_dropped : Bool
  price_drop_amount : Int
  first_seen : Int
  last_seen : Int
  created_at : Int
  updated_at : Int
  deriving DecidableEq

/-- `CarScrapingEngine.calculate_title_similarity`
(src/scraping_engine.py:70-72) compared against the 0.8 threshold of
`is_duplicate`. -/
def seTitleSimGt08 (t1 t2 : List Char) : Bool :=
  ratioGt (lowerL t1) (lowerL t2) 4 5

/-- `CarScrapingEngine.is_duplicate` (src/scraping_engine.py:74-97):
scan the existing listings in order and return at the first one with
(title similarity above 0.8 and price difference below 50) or an exact
match of truthy image hashes, yielding that row's id. -/
def se_is_duplicate (nl : SERaw) : List SERow → Bool × Option Nat
  | [] => (false, none)
  | e :: rest =>
    let imageMatch :=
      match nl.image_hash, e.image_hash with
      | some a, some b => !a.isEmpty && !b.isEmpty && a == b
      | _, _ => false
    if (seTitleSimGt08 nl.title e.title && decide (|nl.price - e.price| < 50))
        || imageMatch then
      (true, some e.id)
    else se_is_duplicate nl rest

/-- Update branch of `CarScrapingEngine.process_listings`
(src/scraping_engine.py:524-537): set price and last_seen; when the
stored `previous_price` is truthy and the new price is lower, set the
price-drop flag and amount; then overwrite `previous_price` with the
new price and touch `updated_at`. -/
def seUpdateRow (now newPrice : Int) (r : SERow) : SERow :=
  let r1 := { r with price := newPrice, last_seen := now }
  let r2 :=
    match r.previous_price with
    | some pp =>
      if pp ≠ 0 ∧ newPrice < pp then
        { r1 with price_dropped := true, price_drop_amount := pp - newPrice }
      else r1
    | none => r1
  { r2 with previous_price := some newPrice, updated_at := now }

/-- The scorer argument built from a scraped record at the call site
`self.calculate_deal_score(listing_data, user.settings)`
(src/scraping_engine.py:550): the dictionary has no `price_dropped`
key, so that factor reads a falsy value. -/
def scorerInputOfSERaw (ld : SERaw) : ScorerInput :=
  { price := some ld.price
    year := ld.year
    mileage := ld.mileage
    fuel_type := ld.fuel_type
    price_dropped := false
    location := some ld.location
    first_seen := some ld.first_seen }

/-- Row created by `CarListing(**listing_data)` in the new-listing branch
(src/scraping_engine.py:553-555); `id` is the identity the session
assigns on flush. -/
def seNewRow (id : Nat) (now : Int) (ld : SERaw) (isDup : Bool)
    (dupId : Option Nat) (score : ℚ) : SERow :=
  { id := id
    title := ld.title
    price := ld.price
    location := ld.location
    url := ld.url
    image_url := ld.image_url
    image_hash := ld.image_hash
    source_site := ld.source_site
    make := ld.make
    model := ld.model
    year := ld.year
    mileage := ld.mileage
    fuel_type := ld.fuel_type
    transmission := ld.transmission
    status := strL "active"
    is_duplicate := isDup
    duplicate_group_id := dupId
    deal_score := score
    previous_price := none
    price_dropped := false
    price_drop_amount := 0
    first_seen := ld.first_seen
    last_seen := now
    created_at := now
    updated_at := now }

/-- State of one `CarScrapingEngine.process_listings` run: the session
rows, the ids held by the `existing_listings` working list (the Python
list holds references, so duplicate checks always see the current row
contents), the next id the session will assign, and the two counters. -/
structure SEState where
  db : List SERow
  existingIds : List Nat
  nextId : Nat
  newCount : Nat
  updatedCount : Nat
  deriving DecidableEq

/-- The rows the `existing_listings` references currently denote. -/
def seExistingRows (st : SEState) : List SERow :=
  st.existingIds.filterMap (fun i => st.db.find? (fun r => r.id == i))

/-- One iteration of the `for listing_data in listings` loop of
`CarScrapingEngine.process_listings` (src/scraping_engine.py:519-562):
URL lookup first; on a hit, update in place and count an update; on a
miss, run the duplicate detector against the working list, score, insert
a new row and append it to the working list. -/
def processOneSE (u : UserSettings) (currentYear nowDays now : Int)
    (st : SEState) (ld : SERaw) : SEState :=
  match st.db.find? (fun r => r.url == ld.url) with
  | some _ =>
    { st with
      db := replaceFirst (fun r => r.url == ld.url) (seUpdateRow now ld.price) st.db
      updatedCount := st.updatedCount + 1 }
  | none =>
    let (isDup, dupId) := se_is_duplicate ld (seExistingRows st)
    let score := se_calculate_deal_score currentYear nowDays (scorerInputOfSERaw ld) u
    let row := seNewRow st.nextId now ld isDup dupId score
    { st with
      db := st.db ++ [row]
      existingIds := st.existingIds ++ [row.id]
      nextId := st.nextId + 1
      newCount := st.newCount + 1 }

/-- Initial state of `CarScrapingEngine.process_listings`
(src/scraping_engine.py:510-517): the working list starts as the active
rows of the session, the counters at zero. -/
def initSEState (db : List SERow) (nextId : Nat) : SEState :=
  { db := db
    existingIds := (db.filter (fun r => r.status == strL "active")).map (fun r => r.id)
    nextId := nextId
    newCount := 0
    updatedCount := 0 }

/-- `CarScrapingEngine.process_listings` (src/scraping_engine.py:506-569):
fold the per-record step over the batch. -/
def se_process_listings (u : UserSettings) (currentYear nowDays now : Int)
    (st : SEState) (lds : List SERaw) : SEState :=
  lds.foldl (processOneSE u currentYear nowDays now) st

/-- Number of engine rows carrying a given URL. -/
def seCountUrl (db : List SERow) (url : List Char) : Nat :=
  db.countP (fun r => r.url == url)

/-! ## Helper lemmas and concrete sample data -/

lemma dpScorePrice_nonneg (p : Option Int) : 0 ≤ dpScorePrice p := by
  unfold dpScorePrice; dsimp only; split_ifs <;> norm_num

lemma dpScoreYear_nonneg (cy : Int) (y : Option Int) : 0 ≤ dpScoreYear cy y := by
  unfold dpScoreYear; dsimp only; split_ifs <;> norm_num

lemma dpScoreMileage_nonneg (cy : Int) (m y : Option Int) : 0 ≤ dpScoreMileage cy m y := by
  unfold dpScoreMileage; dsimp only; split_ifs <;> norm_num

lemma dpScoreFuel_nonneg (f : Option (List Char)) : 0 ≤ dpScoreFuel f := by
  unfold dpScoreFuel; dsimp only; split_ifs <;> norm_num

/-- Rejection characterization of the Normalizer: a cleaned title shorter
than 10 characters, an absent url, or a url without the `http` prefix
each force `clean_listing_data` to reject. -/
lemma clean_listing_data_reject (now cy : Int) (r : RawListing)
    (h : (clean_text (r.title.getD [])).length < 10 ∨ r.url = none ∨
      startsWithL (r.url.getD []) (strL "http") = false) :
    clean_listing_data now cy r = none := by
  unfold clean_listing_data
  split_ifs with h1 h2 h3
  · rfl
  · rfl
  · rfl
  · exfalso
    simp only [Bool.or_eq_true, Bool.not_eq_true'] at h1
    push_neg at h1
    rcases h with h | h | h
    · exact h2 h
    · rw [h] at h1
      simp [truthyS] at h1
    · simp only [Bool.not_eq_true'] at h3
      exact absurd h (by simp [h3])

/-- Success characterization of the Normalizer: truthy title and url, a
long-enough cleaned title, and an `http`-prefixed url produce exactly the
`mkCleaned` record. -/
lemma clean_listing_data_some (now cy : Int) (r : RawListing)
    (h1 : truthyS r.title = true) (h2 : truthyS r.url = true)
    (h3 : ¬ (clean_text (r.title.getD [])).length < 10)
    (h4 : startsWithL (r.url.getD []) (strL "http") = true) :
    clean_listing_data now cy r = some (mkCleaned now cy r) := by
  unfold clean_listing_data
  rw [if_neg (by simp [h1, h2]), if_neg h3, if_neg (by simp [h4])]

/-- After a negative duplicate check the working sets have absorbed the
candidate's url and title; nothing else changed. -/
lemma is_duplicate_false_adds (s : DPState) (url title : List Char)
    (h : (is_duplicate s url title).1 = false) :
    (is_duplicate s url title).2 =
      { s with processed_urls := url :: s.processed_urls,
               processed_titles := title :: s.processed_titles } := by
  unfold is_duplicate at h ⊢
  split_ifs at h ⊢ <;> simp_all

def zeroStats (total : Nat) : RunStats :=
  { total_processed := total, new_listings := 0, updated_listings := 0,
    duplicates_skipped := 0, errors := 0 }

def sampleSettings : UserSettings :=
  { weight_price_vs_market := 25, weight_mileage_vs_year := 20,
    weight_co2_tax_band := 15, weight_popularity_rarity := 15,
    weight_price_dropped := 10, weight_location_match := 10,
    weight_listing_freshness := 5, approved_locations := [strL "Dublin"] }

def sampleScorerInput : ScorerInput :=
  { price := some 15000, year := some 2020, mileage := some 60000,
    fuel_type := some (strL "Diesel"), price_dropped := true,
    location := some (strL "Dublin"), first_seen := some 20490 }

def sampleRawListing : RawListing :=
  { title := some (strL "Toyota Corolla 2020 Diesel"),
    price := some 15000, location := some (strL "Dublin"),
    url := some (strL "https://example.ie/cars/1"),
    year := some 2020, mileage := some 60000,
    fuel_type := some (strL "Diesel") }

/-! ## Claim theorems -/

/-- Claim C10: the simplified intake-time scorer
(`DataProcessor.calculate_deal_score`) returns a value in `[50, 100]` for
every input: the base is 50, every bonus is non-negative, and the final
clamp `max(0, min(100, score))` cannot pull a value of at least 50 below
50. -/
theorem c10_simple_score_bounds (currentYear : Int) (r : RawListing) :
    50 ≤ calculate_deal_score currentYear r ∧ calculate_deal_score currentYear r ≤ 100 := by
  unfold calculate_deal_score
  constructor
  · have h50 : (50 : Int) ≤ 50 + dpScorePrice r.price + dpScoreYear currentYear r.year
        + dpScoreMileage currentYear r.mileage r.year + dpScoreFuel r.fuel_type := by
      have := dpScorePrice_nonneg r.price
      have := dpScoreYear_nonneg currentYear r.year
      have := dpScoreMileage_nonneg currentYear r.mileage r.year
      have := dpScoreFuel_nonneg r.fuel_type
      linarith
    calc (50 : Int) ≤ min 100 _ := le_min (by norm_num) h50
      _ ≤ max 0 _ := le_max_right _ _
  · exact max_le (by norm_num) (min_le_left _ _)

/-- Claim C5: both deal scorers are bounded: the weighted scorer
(`CarScrapingEngine.calculate_deal_score`) returns a value in `[0, 100]`
for every listing and preference object whose seven weights sum to 100,
and the simplified intake-time scorer (`DataProcessor.calculate_deal_score`)
returns a value in `[0, 100]` for every input; both end in an explicit
clamp to that interval. -/
theorem c5_score_bounds (l : ScorerInput) (u : UserSettings) (currentYear nowDays : Int)
    (r : RawListing) (cy2 : Int) (_hw : weightSum u = 100) :
    (0 ≤ se_calculate_deal_score currentYear nowDays l u ∧
      se_calculate_deal_score currentYear nowDays l u ≤ 100) ∧
    (0 ≤ calculate_deal_score cy2 r ∧ calculate_deal_score cy2 r ≤ 100) := by
  refine ⟨⟨?_, ?_⟩, ?_, ?_⟩
  · exact le_min (by norm_num) (le_max_left _ _)
  · exact min_le_left _ _
  · exact le_max_left _ _
  · exact max_le (by norm_num) (min_le_left _ _)

/-- Witness for C5 at a concrete listing and a preference object whose
seven weights sum to 100. -/
theorem c5_score_bounds_witness :
    (0 ≤ se_calculate_deal_score 2025 20500 sampleScorerInput sampleSettings ∧
      se_calculate_deal_score 2025 20500 sampleScorerInput sampleSettings ≤ 100) ∧
    (0 ≤ calculate_deal_score 2025 sampleRawListing ∧
      calculate_deal_score 2025 sampleRawListing ≤ 100) :=
  c5_score_bounds sampleScorerInput sampleSettings 2025 20500 sampleRawListing 2025 (by decide)

/-- Claim C9: the weighted scorer is total on zero numeric inputs: a zero
price (or mileage) fails the truthiness guard exactly like an absent one,
so the corresponding factor contributes 0 and the divisions
`estimated_market_value/price` and `expected_mileage/mileage` are never
evaluated with a zero divisor. -/
theorem c9_zero_numeric_totality (u : UserSettings) (currentYear nowDays : Int)
    (l : ScorerInput) :
    seScorePrice currentYear { l with price := some 0 } u = 0 ∧
    se_calculate_deal_score currentYear nowDays { l with price := some 0 } u
      = se_calculate_deal_score currentYear nowDays { l with price := none } u ∧
    seScoreMileage currentYear { l with mileage := some 0 } u = 0 ∧
    se_calculate_deal_score currentYear nowDays { l with mileage := some 0 } u
      = se_calculate_deal_score currentYear nowDays { l with mileage := none } u := by
  refine ⟨?_, ?_, ?_, ?_⟩
  · simp [seScorePrice, truthyI]
  · simp [se_calculate_deal_score, seScorePrice, seScoreMileage, seScoreFuel,
      seScoreLocation, seScoreFreshness, truthyI]
  · simp [seScoreMileage, truthyI]
  · simp [se_calculate_deal_score, seScorePrice, seScoreMileage, seScoreFuel,
      seScoreLocation, seScoreFreshness, truthyI]

/-- Claim C4: price-drop detection is sticky.  Re-ingesting a persisted
listing's URL (previous_price 20000) at price 18000 through the engine's
update path sets `price_dropped`, `price_drop_amount = 2000` and then
`previous_price = 18000`; a further re-ingestion at 19000 (a rise) leaves
`price_dropped` true and the amount untouched while updating
`previous_price` to 19000. -/
theorem c4_price_drop_sticky (u : UserSettings) (cy nd now1 now2 : Int)
    (row : SERow) (ld1 ld2 : SERaw) (ids : List Nat) (n a b : Nat)
    (hprev : row.previous_price = some 20000)
    (h1u : ld1.url = row.url) (h1p : ld1.price = 18000)
    (h2u : ld2.url = row.url) (h2p : ld2.price = 19000) :
    ∃ r1 r2 : SERow,
      (processOneSE u cy nd now1 ⟨[row], ids, n, a, b⟩ ld1).db = [r1] ∧
      r1.price_dropped = true ∧ r1.price_drop_amount = 2000 ∧
      r1.previous_price = some 18000 ∧ r1.price = 18000 ∧
      (processOneSE u cy nd now2 (processOneSE u cy nd now1 ⟨[row], ids, n, a, b⟩ ld1) ld2).db = [r2] ∧
      r2.price_dropped = true ∧ r2.price_drop_amount = 2000 ∧
      r2.previous_price = some 19000 ∧ r2.price = 19000 := by
  have hstep1 : processOneSE u cy nd now1 ⟨[row], ids, n, a, b⟩ ld1 =
      { db := [seUpdateRow now1 ld1.price row], existingIds := ids,
        nextId := n, newCount := a, updatedCount := b + 1 } := by
    simp [processOneSE, List.find?, replaceFirst, h1u]
  set r1 := seUpdateRow now1 ld1.price row with hr1
  have hr1fields : r1.price_dropped = true ∧ r1.price_drop_amount = 2000 ∧
      r1.previous_price = some 18000 ∧ r1.price = 18000 ∧ r1.url = row.url := by
    rw [hr1]
    simp [seUpdateRow, hprev, h1p]
  have hstep2 : processOneSE u cy nd now2
      (processOneSE u cy nd now1 ⟨[row], ids, n, a, b⟩ ld1) ld2 =
      { db := [seUpdateRow now2 ld2.price r1], existingIds := ids,
        nextId := n, newCount := a, updatedCount := b + 1 + 1 } := by
    rw [hstep1]
    simp [processOneSE, List.find?, replaceFirst, h2u, hr1fields.2.2.2.2]
  refine ⟨r1, seUpdateRow now2 ld2.price r1, ?_, hr1fields.1, hr1fields.2.1,
    hr1fields.2.2.1, hr1fields.2.2.2.1, ?_, ?_, ?_, ?_, ?_⟩
  · rw [hstep1]
  · rw [hstep2]
  · simp [seUpdateRow, hr1fields.2.2.1, h2p, hr1fields.1]
  · simp [seUpdateRow, hr1fields.2.2.1, h2p, hr1fields.2.1]
  · simp [seUpdateRow, hr1fields.2.2.1, h2p]
  · simp [seUpdateRow, hr1fields.2.2.1, h2p]

def sampleRowPrev20000 : SERow :=
  { id := 1, title := strL "Toyota Corolla 2020 Diesel", price := 20000,
    location := strL "Dublin", url := strL "https://example.ie/cars/1",
    image_url := none, image_hash := none, source_site := strL "carzone",
    make := some (strL "Toyota"), model := some (strL "Corolla"),
    year := some 2020, mileage := some 60000,
    fuel_type := some (strL "Diesel"), transmission := none,
    status := strL "active", is_duplicate := false, duplicate_group_id := none,
    deal_score := 80, previous_price := some 20000, price_dropped := false,
    price_drop_amount := 0, first_seen := 20490, last_seen := 20490,
    created_at := 20490, updated_at := 20490 }

def sampleSERaw18000 : SERaw :=
  { title := strL "Toyota Corolla 2020 Diesel", price := 18000,
    location := strL "Dublin", url := strL "https://example.ie/cars/1",
    source_site := strL "carzone", first_seen := 20500 }

def sampleSERaw19000 : SERaw :=
  { title := strL "Toyota Corolla 2020 Diesel", price := 19000,
    location := strL "Dublin", url := strL "https://example.ie/cars/1",
    source_site := strL "carzone", first_seen := 20510 }

/-- Witness for C4 at a concrete persisted row with previous_price 20000
re-ingested at 18000 and then 19000. -/
theorem c4_price_drop_sticky_witness :
    ∃ r1 r2 : SERow,
      (processOneSE sampleSettings 2025 20500 20500
        ⟨[sampleRowPrev20000], [1], 2, 0, 0⟩ sampleSERaw18000).db = [r1] ∧
      r1.price_dropped = true ∧ r1.price_drop_amount = 2000 ∧
      r1.previous_price = some 18000 ∧ r1.price = 18000 ∧
      (processOneSE sampleSettings 2025 20500 20510
        (processOneSE sampleSettings 2025 20500 20500
          ⟨[sampleRowPrev20000], [1], 2, 0, 0⟩ sampleSERaw18000) sampleSERaw19000).db = [r2] ∧
      r2.price_dropped = true ∧ r2.price_drop_amount = 2000 ∧
      r2.previous_price = some 19000 ∧ r2.price = 19000 :=
  c4_price_drop_sticky sampleSettings 2025 20500 20500 20510 sampleRowPrev20000
    sampleSERaw18000 sampleSERaw19000 [1] 2 0 0 rfl rfl rfl rfl rfl

/-- Claim C6: the rejection boundary of the Normalizer inside the
Orchestrator: a record whose cleaned title is shorter than 10 characters,
or whose url is absent or lacks the `http` prefix, leaves the state (and
in particular the database) untouched and bumps exactly the `errors`
counter of the run statistics. -/
theorem c6_rejection_boundary (failStore : List Char → Bool) (now cy : Int)
    (s : DPState) (st : RunStats) (r : RawListing)
    (h : (clean_text (r.title.getD [])).length < 10 ∨ r.url = none ∨
      startsWithL (r.url.getD []) (strL "http") = false) :
    processOneDP failStore now cy (s, st) r = (s, { st with errors := st.errors + 1 }) := by
  unfold processOneDP
  rw [clean_listing_data_reject now cy r h]

def sampleShortTitleRaw : RawListing :=
  { title := some (strL "Audi A4"), url := some (strL "https://example.ie/cars/2") }

/-- Witness for C6 at a record whose cleaned title has 7 characters. -/
theorem c6_rejection_boundary_witness :
    processOneDP (fun _ => false) 20500 2025 (freshDP [], zeroStats 1) sampleShortTitleRaw
      = (freshDP [], { zeroStats 1 with errors := 1 }) :=
  c6_rejection_boundary (fun _ => false) 20500 2025 (freshDP []) (zeroStats 1)
    sampleShortTitleRaw (Or.inl (by decide))

/-- Claim C7: two records ingested in one engine run with distinct URLs,
arbitrary titles and prices, and the same truthy image hash: the second
is inserted with `is_duplicate = true` and `duplicate_group_id` pointing
at the first inserted row's id — the image-hash disjunct of
`CarScrapingEngine.is_duplicate` fires regardless of the title-similarity
and price-proximity conjunction. -/
theorem c7_image_hash_duplicate (u : UserSettings) (cy nd now1 now2 : Int)
    (ld1 ld2 : SERaw) (h0 : List Char) (n : Nat)
    (hu : ld1.url ≠ ld2.url)
    (hh1 : ld1.image_hash = some h0) (hh2 : ld2.image_hash = some h0)
    (hne : h0 ≠ []) :
    ∃ r1 r2 : SERow,
      (processOneSE u cy nd now2 (processOneSE u cy nd now1 (initSEState [] n) ld1) ld2).db
        = [r1, r2] ∧
      r1.is_duplicate = false ∧ r1.url = ld1.url ∧ r2.url = ld2.url ∧
      r2.is_duplicate = true ∧ r2.duplicate_group_id = some r1.id := by
  have hempty : h0.isEmpty = false := by
    cases h0 with
    | nil => exact absurd rfl hne
    | cons a t => rfl
  have hbeq : (ld1.url == ld2.url) = false := by
    rw [beq_eq_false_iff_ne]
    exact hu
  have hstep1 : processOneSE u cy nd now1 (initSEState [] n) ld1 =
      { db := [seNewRow n now1 ld1 false none
          (se_calculate_deal_score cy nd (scorerInputOfSERaw ld1) u)],
        existingIds := [n], nextId := n + 1, newCount := 1, updatedCount := 0 } := by
    simp [processOneSE, initSEState, List.find?, seExistingRows, se_is_duplicate, seNewRow]
  refine ⟨seNewRow n now1 ld1 false none
      (se_calculate_deal_score cy nd (scorerInputOfSERaw ld1) u),
    seNewRow (n + 1) now2 ld2 true (some n)
      (se_calculate_deal_score cy nd (scorerInputOfSERaw ld2) u), ?_, rfl, rfl, rfl, rfl, ?_⟩
  · rw [hstep1]
    simp [processOneSE, List.find?, seNewRow, seExistingRows, se_is_duplicate,
      hh1, hh2, hempty, hbeq]
  · simp [seNewRow]

def sampleHashRaw1 : SERaw :=
  { title := strL "Toyota Corolla 2020 Diesel", price := 15000,
    location := strL "Dublin", url := strL "https://example.ie/cars/10",
    image_hash := some (strL "ffc3c3c3c3c3ffff"),
    source_site := strL "carzone", first_seen := 20500 }

def sampleHashRaw2 : SERaw :=
  { title := strL "Completely different wording here", price := 9000,
    location := strL "Cork", url := strL "https://example.ie/cars/11",
    image_hash := some (strL "ffc3c3c3c3c3ffff"),
    source_site := strL "donedeal", first_seen := 20500 }

/-- Witness for C7 at two concrete records with different URLs, different
prices, dissimilar titles and an identical non-empty image hash. -/
theorem c7_image_hash_duplicate_witness :
    ∃ r1 r2 : SERow,
      (processOneSE sampleSettings 2025 20500 20500
        (processOneSE sampleSettings 2025 20500 20500 (initSEState [] 1) sampleHashRaw1)
        sampleHashRaw2).db = [r1, r2] ∧
      r1.is_duplicate = false ∧ r1.url = sampleHashRaw1.url ∧ r2.url = sampleHashRaw2.url ∧
      r2.is_duplicate = true ∧ r2.duplicate_group_id = some r1.id :=
  c7_image_hash_duplicate sampleSettings 2025 20500 20500 20500 sampleHashRaw1 sampleHashRaw2
    (strL "ffc3c3c3c3c3ffff") 1 (by decide) rfl rfl (by decide)

/-- Claim C3 (amended): in `DataProcessor.is_duplicate` a candidate whose
URL is not in the seen-URL working set is classified a duplicate by title
similarity alone: a sequence-matcher ratio above 0.9 against any earlier
title suffices, with no price-proximity condition (the €50 condition
exists only in the scraper-level detector with its 0.8 threshold). -/
theorem c3_title_similarity_alone (s : DPState) (url title t : List Char)
    (hurl : s.processed_urls.any (fun u => u == url) = false)
    (ht : t ∈ s.processed_titles)
    (hsim : ratioGt (lowerL title) (lowerL t) 9 10 = true) :
    (is_duplicate s url title).1 = true := by
  unfold is_duplicate
  rw [hurl]
  have hany : s.processed_titles.any (fun x => ratioGt (lowerL title) (lowerL x) 9 10) = true :=
    List.any_eq_true.mpr ⟨t, ht, hsim⟩
  simp [hany]

def c3State : DPState :=
  { processed_urls := [strL "https://a.ie/cars/1"],
    processed_titles := [strL "AudiA4 2015"], db := [] }

set_option maxRecDepth 100000 in
/-- Witness for C3 at a concrete state holding one earlier title and a
candidate with an unseen URL and an identical title (ratio 1 > 0.9). -/
theorem c3_title_similarity_alone_witness :
    (is_duplicate c3State (strL "https://b.ie/cars/2") (strL "AudiA4 2015")).1 = true :=
  c3_title_similarity_alone c3State (strL "https://b.ie/cars/2")
    (strL "AudiA4 2015") (strL "AudiA4 2015")
    (by decide) (by decide) (by decide)

def c3raw1 : RawListing :=
  { title := some (strL "AudiA4 2015"), price := some 1000,
    url := some (strL "https://a.ie/cars/1") }

def c3raw2 : RawListing :=
  { title := some (strL "AudiA4 2015"), price := some 50000,
    url := some (strL "https://b.ie/cars/2") }

set_option maxRecDepth 200000 in
/-- Counterexample to C3 as stated: two records in one run with identical
titles (similarity 1 > 0.9) but a €49,000 price gap — the claim says the
second is not a duplicate on title grounds, yet the run counts it as
`duplicates_skipped`. -/
theorem c3_price_gap_counterexample :
    c3raw1.price = some 1000 ∧ c3raw2.price = some 50000 ∧
    (process_listings (fun _ => false) 20500 2025 (freshDP []) [c3raw1, c3raw2]).2.duplicates_skipped = 1 ∧
    (process_listings (fun _ => false) 20500 2025 (freshDP []) [c3raw1, c3raw2]).2.new_listings = 1 := by
  refine ⟨rfl, rfl, ?_, ?_⟩ <;> decide

/-- Claim C2 (amended): a repository write failure is caught at the
per-record boundary: the batch state keeps its database unchanged, the
`errors` counter increments, and processing continues with the remaining
records — but the failed record's URL and title do remain in the
duplicate-detection working sets, because `is_duplicate` inserts them
before `store_listing` runs and nothing removes them on failure. -/
theorem c2_persistence_failure (failStore : List Char → Bool) (now cy : Int)
    (s : DPState) (st : RunStats) (r : RawListing) (c : CleanedListing)
    (hc : clean_listing_data now cy r = some c)
    (hdup : (is_duplicate s c.url c.title).1 = false)
    (hfail : failStore c.url = true) :
    processOneDP failStore now cy (s, st) r =
      ((is_duplicate s c.url c.title).2, { st with errors := st.errors + 1 }) ∧
    (is_duplicate s c.url c.title).2.db = s.db ∧
    c.url ∈ (is_duplicate s c.url c.title).2.processed_urls ∧
    c.title ∈ (is_duplicate s c.url c.title).2.processed_titles ∧
    (∀ (acc : DPState × RunStats) (rest : List RawListing),
      List.foldl (processOneDP failStore now cy) acc (r :: rest) =
        List.foldl (processOneDP failStore now cy) (processOneDP failStore now cy acc r) rest) := by
  have hadd := is_duplicate_false_adds s c.url c.title hdup
  refine ⟨?_, ?_, ?_, ?_, fun _ _ => rfl⟩
  · rcases hsd : is_duplicate s c.url c.title with ⟨dup, s1⟩
    have hdup1 : dup = false := by rw [hsd] at hdup; exact hdup
    subst hdup1
    unfold processOneDP
    rw [hc]
    dsimp only
    rw [hsd]
    simp [hfail]
  · rw [hadd]
  · rw [hadd]
    exact List.mem_cons_self _ _
  · rw [hadd]
    exact List.mem_cons_self _ _

def c2raw : RawListing :=
  { title := some (strL "AudiA4 2015 Diesel"), price := some 9000,
    url := some (strL "https://a.ie/cars/9") }

set_option maxRecDepth 200000 in
/-- Counterexample to C2 as stated: a single-record batch whose write
fails ends with `errors = 1` and an unchanged database, but the failed
record's URL and title ARE present in the working sets afterwards —
the claim asserts they are not. -/
theorem c2_leak_counterexample :
    (processOneDP (fun u => u == strL "https://a.ie/cars/9") 20500 2025
      (freshDP [], zeroStats 1) c2raw).2.errors = 1 ∧
    (processOneDP (fun u => u == strL "https://a.ie/cars/9") 20500 2025
      (freshDP [], zeroStats 1) c2raw).1.processed_urls = [strL "https://a.ie/cars/9"] ∧
    (processOneDP (fun u => u == strL "https://a.ie/cars/9") 20500 2025
      (freshDP [], zeroStats 1) c2raw).1.processed_titles = [strL "AudiA4 2015 Diesel"] ∧
    (processOneDP (fun u => u == strL "https://a.ie/cars/9") 20500 2025
      (freshDP [], zeroStats 1) c2raw).1.db = [] := by
  refine ⟨?_, ?_, ?_, ?_⟩ <;> decide

def c2cleaned : CleanedListing :=
  { title := strL "AudiA4 2015 Diesel", price := some 9000,
    location := strL "Ireland", url := strL "https://a.ie/cars/9",
    image_url := [], image_hash := [], source_site := strL "unknown",
    first_seen := 20500, make := [], model := [], year := none,
    mileage := none, fuel_type := [], transmission := [],
    deal_score := 70, is_duplicate := false }

set_option maxRecDepth 200000 in
/-- Witness for the amended C2 at a concrete record whose write fails. -/
theorem c2_persistence_failure_witness :
    processOneDP (fun u => u == strL "https://a.ie/cars/9") 20500 2025
      (freshDP [], zeroStats 1) c2raw =
      ((is_duplicate (freshDP []) c2cleaned.url c2cleaned.title).2,
        { zeroStats 1 with errors := 1 }) ∧
    (is_duplicate (freshDP []) c2cleaned.url c2cleaned.title).2.db = (freshDP []).db ∧
    c2cleaned.url ∈ (is_duplicate (freshDP []) c2cleaned.url c2cleaned.title).2.processed_urls ∧
    c2cleaned.title ∈ (is_duplicate (freshDP []) c2cleaned.url c2cleaned.title).2.processed_titles ∧
    (∀ (acc : DPState × RunStats) (rest : List RawListing),
      List.foldl (processOneDP (fun u => u == strL "https://a.ie/cars/9") 20500 2025) acc (c2raw :: rest) =
        List.foldl (processOneDP (fun u => u == strL "https://a.ie/cars/9") 20500 2025)
          (processOneDP (fun u => u == strL "https://a.ie/cars/9") 20500 2025 acc c2raw) rest) :=
  c2_persistence_failure (fun u => u == strL "https://a.ie/cars/9") 20500 2025
    (freshDP []) (zeroStats 1) c2raw c2cleaned (by decide) (by decide) (by decide)

/-- Claim C8 (amended): for every RawListing that passes the title/url
checks, a numeric field (price, year, mileage) that is truthy (nonzero)
and outside its plausible range is nulled while the record still
proceeds; a present zero value bypasses the truthiness guard and is
kept, so every canonical price is null, zero, or in [500, 200000], every
canonical year is null, zero, or in [1990, 2025] (the code's hardcoded
upper bound, inside [1990, current_year+1]), and every canonical mileage
is null, zero, or in [0, 500000]. -/
theorem c8_out_of_range_nulled (now cy : Int) (r : RawListing)
    (h1 : truthyS r.title = true) (h2 : truthyS r.url = true)
    (h3 : ¬ (clean_text (r.title.getD [])).length < 10)
    (h4 : startsWithL (r.url.getD []) (strL "http") = true) :
    clean_listing_data now cy r = some (mkCleaned now cy r) ∧
    (∀ p, r.price = some p → p ≠ 0 → (p < 500 ∨ p > 200000) → (mkCleaned now cy r).price = none) ∧
    (∀ p, (mkCleaned now cy r).price = some p → p = 0 ∨ (500 ≤ p ∧ p ≤ 200000)) ∧
    (∀ y, r.year = some y → y ≠ 0 → (y < 1990 ∨ y > 2025) → (mkCleaned now cy r).year = none) ∧
    (∀ y, (mkCleaned now cy r).year = some y → y = 0 ∨ (1990 ≤ y ∧ y ≤ 2025)) ∧
    (∀ m, r.mileage = some m → m ≠ 0 → (m < 0 ∨ m > 500000) → (mkCleaned now cy r).mileage = none) ∧
    (∀ m, (mkCleaned now cy r).mileage = some m → m = 0 ∨ (0 ≤ m ∧ m ≤ 500000)) := by
  refine ⟨clean_listing_data_some now cy r h1 h2 h3 h4, ?_, ?_, ?_, ?_, ?_, ?_⟩
  · intro p hp hne hout
    simp only [mkCleaned]
    rw [hp]
    dsimp only
    rw [if_pos ⟨hne, hout⟩]
  · intro p hp
    simp only [mkCleaned] at hp
    rcases hr : r.price with _ | q
    · rw [hr] at hp
      simp at hp
    · rw [hr] at hp
      dsimp only at hp
      by_cases hq : q ≠ 0 ∧ (q < 500 ∨ q > 200000)
      case pos => rw [if_pos hq] at hp; simp at hp
      case neg =>
        rw [if_neg hq] at hp
        rw [Option.some_inj] at hp
        push_neg at hq
        rcases eq_or_ne q 0 with h0 | h0
        · left
          omega
        · have h5 := hq h0
          right
          omega
  · intro y hy hne hout
    simp only [mkCleaned]
    rw [hy]
    dsimp only
    rw [if_pos ⟨hne, hout⟩]
  · intro y hy
    simp only [mkCleaned] at hy
    rcases hr : r.year with _ | q
    · rw [hr] at hy
      simp at hy
    · rw [hr] at hy
      dsimp only at hy
      by_cases hq : q ≠ 0 ∧ (q < 1990 ∨ q > 2025)
      case pos => rw [if_pos hq] at hy; simp at hy
      case neg =>
        rw [if_neg hq] at hy
        rw [Option.some_inj] at hy
        push_neg at hq
        rcases eq_or_ne q 0 with h0 | h0
        · left
          omega
        · have h5 := hq h0
          right
          omega
  · intro m hm hne hout
    simp only [mkCleaned]
    rw [hm]
    dsimp only
    rw [if_pos ⟨hne, hout⟩]
  · intro m hm
    simp only [mkCleaned] at hm
    rcases hr : r.mileage with _ | q
    · rw [hr] at hm
      simp at hm
    · rw [hr] at hm
      dsimp only at hm
      by_cases hq : q ≠ 0 ∧ (q < 0 ∨ q > 500000)
      case pos => rw [if_pos hq] at hm; simp at hm
      case neg =>
        rw [if_neg hq] at hm
        rw [Option.some_inj] at hm
        push_neg at hq
        rcases eq_or_ne q 0 with h0 | h0
        · left
          omega
        · have h5 := hq h0
          right
          omega

def c8rawZeroPrice : RawListing :=
  { title := some (strL "AudiA4 2015 Diesel"), price := some 0,
    url := some (strL "https://a.ie/cars/8") }

set_option maxRecDepth 200000 in
/-- Counterexample to C8 as stated: a record with price 0 passes the
title/url checks and keeps price 0 in the canonical listing — neither
null nor inside [500, 200000]. -/
theorem c8_zero_price_counterexample :
    Option.map (fun c => c.price) (clean_listing_data 20500 2025 c8rawZeroPrice)
      = some (some 0) := by
  decide

def c8rawCheapPrice : RawListing :=
  { title := some (strL "AudiA4 2015 Diesel"), price := some 300,
    url := some (strL "https://a.ie/cars/8"), year := some 2030, mileage := some 600001 }

set_option maxRecDepth 200000 in
/-- Witness for the amended C8 at a record whose price 300, year 2030 and
mileage 600001 are each truthy and out of range. -/
theorem c8_out_of_range_nulled_witness :
    clean_listing_data 20500 2025 c8rawCheapPrice = some (mkCleaned 20500 2025 c8rawCheapPrice) ∧
    (∀ p, c8rawCheapPrice.price = some p → p ≠ 0 → (p < 500 ∨ p > 200000) →
      (mkCleaned 20500 2025 c8rawCheapPrice).price = none) ∧
    (∀ p, (mkCleaned 20500 2025 c8rawCheapPrice).price = some p → p = 0 ∨ (500 ≤ p ∧ p ≤ 200000)) ∧
    (∀ y, c8rawCheapPrice.year = some y → y ≠ 0 → (y < 1990 ∨ y > 2025) →
      (mkCleaned 20500 2025 c8rawCheapPrice).year = none) ∧
    (∀ y, (mkCleaned 20500 2025 c8rawCheapPrice).year = some y → y = 0 ∨ (1990 ≤ y ∧ y ≤ 2025)) ∧
    (∀ m, c8rawCheapPrice.mileage = some m → m ≠ 0 → (m < 0 ∨ m > 500000) →
      (mkCleaned 20500 2025 c8rawCheapPrice).mileage = none) ∧
    (∀ m, (mkCleaned 20500 2025 c8rawCheapPrice).mileage = some m → m = 0 ∨ (0 ≤ m ∧ m ≤ 500000)) :=
  c8_out_of_range_nulled 20500 2025 c8rawCheapPrice (by decide) (by decide) (by decide) (by decide)

/-- Inversion of a successful normalization: the produced record is
`mkCleaned` and the four acceptance guards held; the guards do not
depend on the wall-clock inputs. -/
lemma clean_listing_data_some_inv (now cy : Int) (r : RawListing) (c : CleanedListing)
    (h : clean_listing_data now cy r = some c) :
    c = mkCleaned now cy r ∧ truthyS r.title = true ∧ truthyS r.url = true ∧
    ¬ (clean_text (r.title.getD [])).length < 10 ∧
    startsWithL (r.url.getD []) (strL "http") = true := by
  unfold clean_listing_data at h
  by_cases h1 : (!(truthyS r.title) || !(truthyS r.url)) = true
  · rw [if_pos h1] at h
    exact absurd h (by simp)
  · rw [if_neg h1] at h
    by_cases h2 : (clean_text (r.title.getD [])).length < 10
    · rw [if_pos h2] at h
      exact absurd h (by simp)
    · rw [if_neg h2] at h
      by_cases h3 : (!(startsWithL (r.url.getD []) (strL "http"))) = true
      · rw [if_pos h3] at h
        exact absurd h (by simp)
      · rw [if_neg h3] at h
        simp only [Bool.or_eq_true, Bool.not_eq_true', not_or] at h1
        simp only [Bool.not_eq_true'] at h3
        exact ⟨(Option.some_inj.mp h).symm, Bool.ne_false_iff.mp h1.1,
          Bool.ne_false_iff.mp h1.2, h2, Bool.ne_false_iff.mp h3⟩

/-- A URL the database lookup misses has no row. -/
lemma countUrl_eq_zero_of_not_has (db : List DPRow) (u : List Char)
    (h : dbHasUrl db u = false) : countUrl db u = 0 := by
  unfold dbHasUrl at h
  unfold countUrl
  rw [List.countP_eq_zero]
  intro a ha
  rw [List.any_eq_false] at h
  exact h a ha

/-- Appending one row adds its URL to the count. -/
lemma countUrl_append_row (db : List DPRow) (row : DPRow) (u : List Char) :
    countUrl (db ++ [row]) u = countUrl db u + (if row.url == u then 1 else 0) := by
  unfold countUrl
  rw [List.countP_append]
  simp [List.countP_cons]

/-- The engine's update branch never rewrites the row's URL. -/
lemma seUpdateRow_url (now np : Int) (x : SERow) : (seUpdateRow now np x).url = x.url := by
  cases hpp : x.previous_price <;> simp [seUpdateRow, hpp] <;> split_ifs <;> rfl

/-- Updating the first row with a given URL in place preserves every
URL count. -/
lemma seCountUrl_replaceFirst (now np : Int) (u u2 : List Char) (db : List SERow) :
    seCountUrl (replaceFirst (fun x => x.url == u) (seUpdateRow now np) db) u2
      = seCountUrl db u2 := by
  induction db with
  | nil => rfl
  | cons x xs ih =>
    unfold replaceFirst
    by_cases hx : (x.url == u) = true
    · rw [if_pos hx]
      unfold seCountUrl at *
      simp [List.countP_cons, seUpdateRow_url]
    · rw [if_neg hx]
      unfold seCountUrl at *
      simp only [List.countP_cons]
      rw [ih]

/-- Claim C1 (amended): a RawListing ingested as new in a first run
yields exactly one persisted row for its URL, and a repeat run still
yields exactly one row in total; in the `DataProcessor` orchestrator the
repeat is classified a duplicate by the database-URL lookup inside
`is_duplicate` and counted as `duplicates_skipped` (with
`new_listings = 0`, `updated_listings = 0`, `errors = 0` and the
database unchanged), while in the `CarScrapingEngine` orchestrator a
record whose URL already has a row takes the update path
(`updatedCount` increments, `newCount` stays, the row is updated in
place and the URL's row count is unchanged). -/
theorem c1_repeat_run (r : RawListing) (u0 : List Char) (db0 : List DPRow)
    (now1 cy1 now2 cy2 : Int)
    (useng : UserSettings) (cyE ndE nowE : Int) (st : SEState) (ldE : SERaw) (rowE : SERow)
    (hurl : r.url = some u0)
    (hnew : (process_listings (fun _ => false) now1 cy1 (freshDP db0) [r]).2.new_listings = 1)
    (hfind : st.db.find? (fun x => x.url == ldE.url) = some rowE) :
    countUrl (process_listings (fun _ => false) now1 cy1 (freshDP db0) [r]).1.db u0 = 1 ∧
    (process_listings (fun _ => false) now2 cy2
      (freshDP (process_listings (fun _ => false) now1 cy1 (freshDP db0) [r]).1.db)
      [r]).2.duplicates_skipped = 1 ∧
    (process_listings (fun _ => false) now2 cy2
      (freshDP (process_listings (fun _ => false) now1 cy1 (freshDP db0) [r]).1.db)
      [r]).2.new_listings = 0 ∧
    (process_listings (fun _ => false) now2 cy2
      (freshDP (process_listings (fun _ => false) now1 cy1 (freshDP db0) [r]).1.db)
      [r]).2.updated_listings = 0 ∧
    (process_listings (fun _ => false) now2 cy2
      (freshDP (process_listings (fun _ => false) now1 cy1 (freshDP db0) [r]).1.db)
      [r]).2.errors = 0 ∧
    (process_listings (fun _ => false) now2 cy2
      (freshDP (process_listings (fun _ => false) now1 cy1 (freshDP db0) [r]).1.db)
      [r]).1.db = (process_listings (fun _ => false) now1 cy1 (freshDP db0) [r]).1.db ∧
    (processOneSE useng cyE ndE nowE st ldE).newCount = st.newCount ∧
    (processOneSE useng cyE ndE nowE st ldE).updatedCount = st.updatedCount + 1 ∧
    seCountUrl (processOneSE useng cyE ndE nowE st ldE).db ldE.url = seCountUrl st.db ldE.url := by
  have hSE : processOneSE useng cyE ndE nowE st ldE =
      { st with
        db := replaceFirst (fun x => x.url == ldE.url) (seUpdateRow nowE ldE.price) st.db,
        updatedCount := st.updatedCount + 1 } := by
    unfold processOneSE
    rw [hfind]
  have hrun1eq : process_listings (fun _ => false) now1 cy1 (freshDP db0) [r]
      = processOneDP (fun _ => false) now1 cy1 (freshDP db0, zeroStats 1) r := rfl
  rcases hclean : clean_listing_data now1 cy1 r with _ | c
  · exfalso
    rw [hrun1eq] at hnew
    unfold processOneDP at hnew
    rw [hclean] at hnew
    simp [zeroStats] at hnew
  · obtain ⟨hcEq, ht1, ht2, ht3, ht4⟩ := clean_listing_data_some_inv now1 cy1 r c hclean
    have hcurl : c.url = u0 := by
      rw [hcEq]
      simp [mkCleaned, hurl]
    by_cases hdb : dbHasUrl db0 c.url = true
    · exfalso
      rw [hrun1eq] at hnew
      unfold processOneDP at hnew
      rw [hclean] at hnew
      dsimp only at hnew
      unfold is_duplicate at hnew
      simp [freshDP, hdb, zeroStats] at hnew
    · rw [Bool.not_eq_true] at hdb
      have hout1 : processOneDP (fun _ => false) now1 cy1 (freshDP db0, zeroStats 1) r
          = ({ processed_urls := [c.url], processed_titles := [c.title],
               db := db0 ++ [dpNewRow now1 c] },
             { zeroStats 1 with new_listings := 1 }) := by
        unfold processOneDP
        rw [hclean]
        dsimp only
        unfold is_duplicate store_listing
        simp [freshDP, hdb, zeroStats]
      have hdb1 : (process_listings (fun _ => false) now1 cy1 (freshDP db0) [r]).1.db
          = db0 ++ [dpNewRow now1 c] := by
        rw [hrun1eq, hout1]
      have hZ : countUrl db0 u0 = 0 :=
        countUrl_eq_zero_of_not_has db0 u0 (by rw [← hcurl]; exact hdb)
      have hcount1 : countUrl (db0 ++ [dpNewRow now1 c]) u0 = 1 := by
        rw [countUrl_append_row, hZ]
        simp [dpNewRow, hcurl]
      have hclean2 : clean_listing_data now2 cy2 r = some (mkCleaned now2 cy2 r) :=
        clean_listing_data_some now2 cy2 r ht1 ht2 ht3 ht4
      have hu2 : (mkCleaned now2 cy2 r).url = u0 := by
        simp [mkCleaned, hurl]
      have hhas2 : dbHasUrl (db0 ++ [dpNewRow now1 c]) (mkCleaned now2 cy2 r).url = true := by
        rw [hu2]
        unfold dbHasUrl
        rw [List.any_append]
        simp [dpNewRow, hcurl]
      have hout2 : processOneDP (fun _ => false) now2 cy2
          (freshDP (db0 ++ [dpNewRow now1 c]), zeroStats 1) r
          = (freshDP (db0 ++ [dpNewRow now1 c]), { zeroStats 1 with duplicates_skipped := 1 }) := by
        unfold processOneDP
        rw [hclean2]
        dsimp only
        unfold is_duplicate
        simp [freshDP, hhas2, zeroStats]
      have hrun2eq : process_listings (fun _ => false) now2 cy2
          (freshDP (db0 ++ [dpNewRow now1 c])) [r]
          = processOneDP (fun _ => false) now2 cy2
            (freshDP (db0 ++ [dpNewRow now1 c]), zeroStats 1) r := rfl
      refine ⟨?_, ?_, ?_, ?_, ?_, ?_, ?_, ?_, ?_⟩
      · rw [hdb1]
        exact hcount1
      · rw [hdb1, hrun2eq, hout2]
      · rw [hdb1, hrun2eq, hout2]
        rfl
      · rw [hdb1, hrun2eq, hout2]
        rfl
      · rw [hdb1, hrun2eq, hout2]
        rfl
      · rw [hdb1, hrun2eq, hout2]
        rfl
      · rw [hSE]
      · rw [hSE]
      · rw [hSE]
        exact seCountUrl_replaceFirst nowE ldE.price ldE.url ldE.url st.db

def c1raw : RawListing :=
  { title := some (strL "AudiA4 2015 Petrol"), price := some 12000,
    url := some (strL "https://a.ie/cars/77") }

set_option maxRecDepth 200000 in
/-- Counterexample to C1 as stated: re-running the DataProcessor
pipeline on the same record counts it as `duplicates_skipped`, not as
an `updated_listings` increment — the claim asserts the repeat takes
the update path and is not counted as a duplicate. -/
theorem c1_duplicates_skipped_counterexample :
    (process_listings (fun _ => false) 20500 2025 (freshDP []) [c1raw]).2.new_listings = 1 ∧
    (process_listings (fun _ => false) 20600 2025
      (freshDP (process_listings (fun _ => false) 20500 2025 (freshDP []) [c1raw]).1.db)
      [c1raw]).2.duplicates_skipped = 1 ∧
    (process_listings (fun _ => false) 20600 2025
      (freshDP (process_listings (fun _ => false) 20500 2025 (freshDP []) [c1raw]).1.db)
      [c1raw]).2.updated_listings = 0 := by
  refine ⟨?_, ?_, ?_⟩ <;> decide

set_option maxRecDepth 200000 in
/-- Witness for the amended C1 at one concrete record re-ingested by the
DataProcessor pipeline and one concrete engine state holding the URL of
the incoming record. -/
theorem c1_repeat_run_witness :
    countUrl (process_listings (fun _ => false) 20500 2025 (freshDP []) [c1raw]).1.db
      (strL "https://a.ie/cars/77") = 1 ∧
    (process_listings (fun _ => false) 20600 2025
      (freshDP (process_listings (fun _ => false) 20500 2025 (freshDP []) [c1raw]).1.db)
      [c1raw]).2.duplicates_skipped = 1 ∧
    (process_listings (fun _ => false) 20600 2025
      (freshDP (process_listings (fun _ => false) 20500 2025 (freshDP []) [c1raw]).1.db)
      [c1raw]).2.new_listings = 0 ∧
    (process_listings (fun _ => false) 20600 2025
      (freshDP (process_listings (fun _ => false) 20500 2025 (freshDP []) [c1raw]).1.db)
      [c1raw]).2.updated_listings = 0 ∧
    (process_listings (fun _ => false) 20600 2025
      (freshDP (process_listings (fun _ => false) 20500 2025 (freshDP []) [c1raw]).1.db)
      [c1raw]).2.errors = 0 ∧
    (process_listings (fun _ => false) 20600 2025
      (freshDP (process_listings (fun _ => false) 20500 2025 (freshDP []) [c1raw]).1.db)
      [c1raw]).1.db = (process_listings (fun _ => false) 20500 2025 (freshDP []) [c1raw]).1.db ∧
    (processOneSE sampleSettings 2025 20500 20500
      ⟨[sampleRowPrev20000], [1], 2, 0, 0⟩ sampleSERaw18000).newCount = 0 ∧
    (processOneSE sampleSettings 2025 20500 20500
      ⟨[sampleRowPrev20000], [1], 2, 0, 0⟩ sampleSERaw18000).updatedCount = 1 ∧
    seCountUrl (processOneSE sampleSettings 2025 20500 20500
      ⟨[sampleRowPrev20000], [1], 2, 0, 0⟩ sampleSERaw18000).db sampleSERaw18000.url
      = seCountUrl [sampleRowPrev20000] sampleSERaw18000.url :=
  c1_repeat_run c1raw (strL "https://a.ie/cars/77") [] 20500 2025 20600 2025
    sampleSettings 2025 20500 20500 ⟨[sampleRowPrev20000], [1], 2, 0, 0⟩
    sampleSERaw18000 sampleRowPrev20000 rfl (by decide) (by decide)
